import Mathlib

/-!
# Sygma relayer: local EVM end-to-end environment and keyshare store

A shallow embedding of

* `chains/evm/cli/local/deploy.go` (`PrepareLocalEVME2EEnv` and its helpers),
* `e2e/evm/test.go` (`SetupEVM2EVMTestSuite`, `SetupSuite` and the deposit calls of the
  three deposit scenarios),
* `keyshare/keyshare.go` (`StoreKeyshare`, `GetKeyshare`).

The contract binding layer (deployments and contract transactions) is external to these
files.  It is embedded as a `World`: a response function that, given the calls already
made through the client and the next call, answers with a value and an optional error.
Every function that talks to the binding layer threads the trace of calls made so far.
-/

namespace Sygma

/-! ## Bytes, addresses, errors -/

/-- A `common.Address` (20 bytes), read as a number; `common.Address{}` is `0`. -/
abbrev Address := Nat

/-- A Go `error` value (its message); the `nil` error is `none : Option Err`. -/
abbrev Err := String

/-- A byte string (`[]byte`, or a fixed-size byte array); every entry is below 256. -/
abbrev Bytes := List Nat

/-- The zero address `common.Address{}`. -/
def zeroAddress : Address := 0

/-- Library definition of go-ethereum `common.LeftPadBytes(slice, l)` (not part of the
three files): a slice of length at least `l` is returned unchanged, otherwise a fresh
zero slice of length `l` receives `slice` at offset `l - len(slice)`. -/
def LeftPadBytes (slice : Bytes) (l : Nat) : Bytes :=
  if l ≤ slice.length then slice
  else List.replicate (l - slice.length) 0 ++ slice

/-- Library definition of `calls.SliceTo32Bytes(in)` (not part of the three files):
`var res [32]byte; copy(res[:], in); return res`.  `copy` moves `min 32 (len in)` bytes
to the front of `res`; the remaining bytes keep their zero value. -/
def SliceTo32Bytes (inp : Bytes) : Bytes :=
  inp.take 32 ++ List.replicate (32 - (inp.take 32).length) 0

/-- One lower-case hexadecimal digit. -/
def hexDigit (n : Nat) : Char :=
  if n < 10 then Char.ofNat (48 + n) else Char.ofNat (87 + n)

/-- The two hexadecimal digits of one byte. -/
def hexByte (b : Nat) : List Char :=
  [hexDigit (b / 16 % 16), hexDigit (b % 16)]

/-- Library definition of go-ethereum `hexutil.Encode(b)`: `"0x"` followed by the
lower-case hexadecimal digits of `b`. -/
def hexutilEncode (b : Bytes) : String :=
  String.mk ('0' :: 'x' :: (b.map hexByte).flatten)

/-- The resource ID expression of `PrepareLocalEVME2EEnv` (deploy.go 106-110) and of
`SetupSuite` (test.go 86-88) for discriminator byte `d`:
`calls.SliceTo32Bytes(common.LeftPadBytes([]byte{d}, 31))`. -/
def resourceIDOf (d : Nat) : Bytes :=
  SliceTo32Bytes (LeftPadBytes [d] 31)

/-- The variable `resourceIDERC20` of deploy.go line 106. -/
def resourceIDERC20 : Bytes := SliceTo32Bytes (LeftPadBytes [0] 31)

/-- The variable `resourceIDGenericHandler` of deploy.go line 108. -/
def resourceIDGenericHandler : Bytes := SliceTo32Bytes (LeftPadBytes [1] 31)

/-- The variable `resourceIDERC721` of deploy.go line 110. -/
def resourceIDERC721 : Bytes := SliceTo32Bytes (LeftPadBytes [2] 31)

/-- The value the spec's construction rule describes: the discriminator byte left-padded
with zeros to 32 bytes. -/
def leftPadTo32 (d : Nat) : Bytes := List.replicate 31 0 ++ [d]

/-! ## The contract binding layer -/

/-- The fields of `transactor.TransactOptions` the three files set; every other field is
left at its zero value everywhere.  `Value` is a `*big.Int` (`none` is `nil`). -/
structure TransactOptions where
  GasLimit : Nat := 0
  Value : Option Nat := none
  Priority : Nat := 0
  deriving DecidableEq, Repr

/-- A call into the binding layer on the contracts of one chain, named after the
contract object it is made on and the method, with the arguments of the source: the
calls `PrepareLocalEVME2EEnv` makes, and the non-fungible mint, which it does not. -/
inductive Call where
  /-- The call `bridgeContract.DeployContract(domainID)`. -/
  | BridgeDeploy (domainID : Nat)
  /-- The call `bridgeContract.EndKeygen(mpcAddress, opts)`. -/
  | EndKeygen (mpcAddress : Address) (opts : TransactOptions)
  /-- The call `basicFeeHandlerContract.DeployContract(bridgeAddr)`. -/
  | FeeHandlerDeploy (bridgeAddr : Address)
  /-- The call `erc721Contract.DeployContract(name, symbol, baseURI)`. -/
  | Erc721Deploy (name symbol baseURI : String)
  /-- The call `erc721HandlerContract.DeployContract(bridgeAddr)`. -/
  | Erc721HandlerDeploy (bridgeAddr : Address)
  /-- The call `erc20Contract.DeployContract(name, symbol)`. -/
  | Erc20Deploy (name symbol : String)
  /-- The call `erc20HandlerContract.DeployContract(bridgeAddr)`. -/
  | Erc20HandlerDeploy (bridgeAddr : Address)
  /-- The call `assetStoreContract.DeployContract()`. -/
  | AssetStoreDeploy
  /-- The call `genericHandlerContract.DeployContract(bridgeAddr)`. -/
  | GenericHandlerDeploy (bridgeAddr : Address)
  /-- The call `bridgeContract.AdminChangeFeeHandler(feeHandlerAddr, opts)`. -/
  | AdminChangeFeeHandler (feeHandlerAddr : Address) (opts : TransactOptions)
  /-- The call `bridgeContract.AdminSetResource(handlerAddr, rID, addr, opts)`. -/
  | AdminSetResource (handlerAddr : Address) (rID : Bytes) (addr : Address)
      (opts : TransactOptions)
  /-- The call `erc20Contract.MintTokens(to, amount, opts)` (`to` is written `toAddr`). -/
  | Erc20MintTokens (toAddr : Address) (amount : Nat) (opts : TransactOptions)
  /-- The call `erc20Contract.ApproveTokens(target, amount, opts)`. -/
  | Erc20ApproveTokens (target : Address) (amount : Nat) (opts : TransactOptions)
  /-- The call `erc20Contract.AddMinter(handler, opts)`. -/
  | Erc20AddMinter (handler : Address) (opts : TransactOptions)
  /-- The call `erc721Contract.AddMinter(handler, opts)`. -/
  | Erc721AddMinter (handler : Address) (opts : TransactOptions)
  /-- The call `erc721Contract.Mint(tokenId, metadata, destination, opts)`; in the three
  files only `TestErc721Deposit` makes it (test.go line 160). -/
  | Erc721Mint (tokenId : Nat) (metadata : String) (destination : Address)
      (opts : TransactOptions)
  /-- The call `bridgeContract.SetBurnableInput(handlerAddr, tokenContractAddr, opts)`. -/
  | SetBurnableInput (handlerAddr : Address) (tokenContractAddr : Address)
      (opts : TransactOptions)
  /-- The call `bridgeContract.AdminSetGenericResource(handler, rID, addr, depositFunctionSig,
  depositerOffset, executeFunctionSig, opts)`. -/
  | AdminSetGenericResource (handler : Address) (rID : Bytes) (addr : Address)
      (depositFunctionSig : Bytes) (depositerOffset : Nat) (executeFunctionSig : Bytes)
      (opts : TransactOptions)
  deriving DecidableEq, Repr

/-- What a binding-layer call returns: a value (the deployed address of a deployment, the
transaction hash of a transaction) and a Go error (`none` is `nil`). -/
abbrev Response := Nat × Option Err

/-- One entry of the trace: the call made and what it returned. -/
structure Event where
  call : Call
  resp : Response
  deriving DecidableEq, Repr

/-- The calls made so far through one client, oldest first. -/
abbrev Trace := List Event

/-- The chain client together with the binding layer behind it.  `From` is the account
the client signs with (`ethClient.From()`); `respond` answers a call given all earlier
calls and their answers. -/
structure World where
  From : Address
  respond : Trace → Call → Response

/-- Issue one binding-layer call: ask the world, append the event to the trace. -/
def invoke (w : World) (c : Call) (tr : Trace) : Response × Trace :=
  (w.respond tr c, tr ++ [⟨c, w.respond tr c⟩])

/-- The variable `MpcAddress` (deploy.go line 31):
`common.HexToAddress("0x1c5541A79AcC662ab2D2647F3B141a3B7Cdb2Ae4")`. -/
def MpcAddress : Address := 0x1c5541A79AcC662ab2D2647F3B141a3B7Cdb2Ae4

/-- The struct `EVME2EConfig` (deploy.go 34-48).  The default values are the Go zero
values, so `{}` is `EVME2EConfig{}`; `Fee` is a `*big.Int`. -/
structure EVME2EConfig where
  BridgeAddr : Address := 0
  FeeHandlerAddr : Address := 0
  Erc20Addr : Address := 0
  Erc20HandlerAddr : Address := 0
  AssetStoreAddr : Address := 0
  GenericHandlerAddr : Address := 0
  Erc721Addr : Address := 0
  Erc721HandlerAddr : Address := 0
  ResourceIDERC20 : String := ""
  ResourceIDERC721 : String := ""
  ResourceIDGeneric : String := ""
  IsBasicFeeHandler : Bool := false
  Fee : Option Nat := none
  deriving DecidableEq, Repr

/-- The function `deployGeneric` (deploy.go 156-174).  Returns
`((genericHandlerAddress, assetStoreAddress), err)`. -/
def deployGeneric (w : World) (bridgeContractAddress : Address) (tr : Trace) :
    ((Address × Address) × Option Err) × Trace :=
  match invoke w .AssetStoreDeploy tr with
  | ((_, some err), tr) => (((zeroAddress, zeroAddress), some err), tr)
  | ((assetStoreAddress, none), tr) =>
  match invoke w (.GenericHandlerDeploy bridgeContractAddress) tr with
  | ((_, some err), tr) => (((zeroAddress, zeroAddress), some err), tr)
  | ((genericHandlerAddress, none), tr) =>
  (((genericHandlerAddress, assetStoreAddress), none), tr)

/-- The function `deployErc20` (deploy.go 176-194).  Returns
`((erc20ContractAddress, erc20HandlerContractAddress), err)`; the returned contract
object is the receiver of the later `Erc20...` calls. -/
def deployErc20 (w : World) (bridgeContractAddress : Address) (tr : Trace) :
    ((Address × Address) × Option Err) × Trace :=
  match invoke w (.Erc20Deploy "Test" "TST") tr with
  | ((_, some err), tr) => (((zeroAddress, zeroAddress), some err), tr)
  | ((erc20ContractAddress, none), tr) =>
  match invoke w (.Erc20HandlerDeploy bridgeContractAddress) tr with
  | ((_, some err), tr) => (((zeroAddress, zeroAddress), some err), tr)
  | ((erc20HandlerContractAddress, none), tr) =>
  (((erc20ContractAddress, erc20HandlerContractAddress), none), tr)

/-- The function `deployErc721` (deploy.go 196-214).  Returns
`((erc721ContractAddress, erc721HandlerContractAddress), err)`; the returned contract
object is the receiver of the later `Erc721...` calls. -/
def deployErc721 (w : World) (bridgeContractAddress : Address) (tr : Trace) :
    ((Address × Address) × Option Err) × Trace :=
  match invoke w (.Erc721Deploy "TestERC721" "TST721" "") tr with
  | ((_, some err), tr) => (((zeroAddress, zeroAddress), some err), tr)
  | ((erc721ContractAddress, none), tr) =>
  match invoke w (.Erc721HandlerDeploy bridgeContractAddress) tr with
  | ((_, some err), tr) => (((zeroAddress, zeroAddress), some err), tr)
  | ((erc721HandlerContractAddress, none), tr) =>
  (((erc721ContractAddress, erc721HandlerContractAddress), none), tr)

/-- The function `PrepareFeeEnv` (deploy.go 216-222). -/
def PrepareFeeEnv (w : World) (feeHandlerAddr : Address) (tr : Trace) :
    Option Err × Trace :=
  match invoke w (.AdminChangeFeeHandler feeHandlerAddr { GasLimit := 2000000 }) tr with
  | ((_, some err), tr) => (some err, tr)
  | ((_, none), tr) => (none, tr)

/-- The value `tenTokens` (deploy.go line 234): `10 * 10^18`. -/
def tenTokens : Nat := 10 * 10 ^ 18

/-- The function `PrepareErc20EVME2EEnv` (deploy.go 224-255). -/
def PrepareErc20EVME2EEnv (w : World) (mintTo : Address) (conf : EVME2EConfig)
    (resourceID : Bytes) (tr : Trace) : Option Err × Trace :=
  match invoke w (.AdminSetResource conf.Erc20HandlerAddr resourceID conf.Erc20Addr
      { GasLimit := 2000000 }) tr with
  | ((_, some err), tr) => (some err, tr)
  | ((_, none), tr) =>
  match invoke w (.Erc20MintTokens mintTo tenTokens {}) tr with
  | ((_, some err), tr) => (some err, tr)
  | ((_, none), tr) =>
  match invoke w (.Erc20ApproveTokens conf.Erc20HandlerAddr tenTokens {}) tr with
  | ((_, some err), tr) => (some err, tr)
  | ((_, none), tr) =>
  match invoke w (.Erc20AddMinter conf.Erc20HandlerAddr {}) tr with
  | ((_, some err), tr) => (some err, tr)
  | ((_, none), tr) =>
  match invoke w (.SetBurnableInput conf.Erc20HandlerAddr conf.Erc20Addr {}) tr with
  | ((_, some err), tr) => (some err, tr)
  | ((_, none), tr) => (none, tr)

/-- The function `PrepareGenericEVME2EEnv` (deploy.go 257-271). -/
def PrepareGenericEVME2EEnv (w : World) (conf : EVME2EConfig) (resourceID : Bytes)
    (tr : Trace) : Option Err × Trace :=
  match invoke w (.AdminSetGenericResource conf.GenericHandlerAddr resourceID
      conf.AssetStoreAddr [0x65, 0x4c, 0xf8, 0x8c] 0 [0x65, 0x4c, 0xf8, 0x8c]
      { GasLimit := 2000000 }) tr with
  | ((_, some err), tr) => (some err, tr)
  | ((_, none), tr) => (none, tr)

/-- The function `PrepareErc721EVME2EEnv` (deploy.go 273-289). -/
def PrepareErc721EVME2EEnv (w : World) (conf : EVME2EConfig) (resourceID : Bytes)
    (tr : Trace) : Option Err × Trace :=
  match invoke w (.AdminSetResource conf.Erc721HandlerAddr resourceID conf.Erc721Addr
      { GasLimit := 2000000 }) tr with
  | ((_, some err), tr) => (some err, tr)
  | ((_, none), tr) =>
  match invoke w (.Erc721AddMinter conf.Erc721HandlerAddr {}) tr with
  | ((_, some err), tr) => (some err, tr)
  | ((_, none), tr) =>
  match invoke w (.SetBurnableInput conf.Erc721HandlerAddr conf.Erc721Addr {}) tr with
  | ((_, some err), tr) => (some err, tr)
  | ((_, none), tr) => (none, tr)

/-- The function `PrepareLocalEVME2EEnv` (deploy.go 55-154), on a client with the trace
`tr` behind it.  Returns the pair `(EVME2EConfig, error)` and the trace afterwards.  The gas pricer,
the transactor and the contract objects are built without a binding-layer call; the
`log.Debug` lines have no effect on the result.  `domainID` is a `uint8`, only passed
on to the bridge deployment. -/
def PrepareLocalEVME2EEnv (w : World) (domainID : Nat) (mintTo : Address) (tr : Trace) :
    (EVME2EConfig × Option Err) × Trace :=
  match invoke w (.BridgeDeploy domainID) tr with
  | ((_, some err), tr) => (({}, some err), tr)
  | ((bridgeContractAddress, none), tr) =>
  match invoke w (.EndKeygen MpcAddress {}) tr with
  | ((_, some err), tr) => (({}, some err), tr)
  | ((_, none), tr) =>
  match invoke w (.FeeHandlerDeploy bridgeContractAddress) tr with
  | ((_, some err), tr) => (({}, some err), tr)
  | ((basicFeeHandlerAddress, none), tr) =>
  let basicFee : Nat := 0
  match deployErc721 w bridgeContractAddress tr with
  | ((_, some err), tr) => (({}, some err), tr)
  | (((erc721ContractAddress, erc721HandlerContractAddress), none), tr) =>
  match deployErc20 w bridgeContractAddress tr with
  | ((_, some err), tr) => (({}, some err), tr)
  | (((erc20ContractAddress, erc20HandlerContractAddress), none), tr) =>
  match deployGeneric w bridgeContractAddress tr with
  | ((_, some err), tr) => (({}, some err), tr)
  | (((genericHandlerAddress, assetStoreAddress), none), tr) =>
  let conf : EVME2EConfig :=
    { BridgeAddr := bridgeContractAddress
      FeeHandlerAddr := basicFeeHandlerAddress
      Erc20Addr := erc20ContractAddress
      Erc20HandlerAddr := erc20HandlerContractAddress
      GenericHandlerAddr := genericHandlerAddress
      AssetStoreAddr := assetStoreAddress
      Erc721Addr := erc721ContractAddress
      Erc721HandlerAddr := erc721HandlerContractAddress
      ResourceIDERC20 := hexutilEncode resourceIDERC20
      ResourceIDERC721 := hexutilEncode resourceIDERC721
      ResourceIDGeneric := hexutilEncode resourceIDGenericHandler
      IsBasicFeeHandler := true
      Fee := some basicFee }
  match PrepareFeeEnv w basicFeeHandlerAddress tr with
  | (some err, tr) => (({}, some err), tr)
  | (none, tr) =>
  match PrepareErc20EVME2EEnv w mintTo conf resourceIDERC20 tr with
  | (some err, tr) => (({}, some err), tr)
  | (none, tr) =>
  match PrepareErc721EVME2EEnv w conf resourceIDERC721 tr with
  | (some err, tr) => (({}, some err), tr)
  | (none, tr) =>
  match PrepareGenericEVME2EEnv w conf resourceIDGenericHandler tr with
  | (some err, tr) => (({}, some err), tr)
  | (none, tr) => ((conf, none), tr)

/-- A world in which every call succeeds; deployments return the addresses
`100 + (number of earlier calls)`. -/
def okWorld : World := ⟨7, fun tr _ => (100 + tr.length, none)⟩

/-- The relation `Seq w cs tr oe tr1`: issuing the calls `cs` in order on trace `tr`,
stopping at the first error, ends with error `oe` and trace `tr1`. -/
def Seq (w : World) : List Call → Trace → Option Err → Trace → Prop
  | [], tr, oe, tr1 => oe = none ∧ tr1 = tr
  | c :: cs, tr, oe, tr1 =>
    (∃ a e, oe = some e ∧ w.respond tr c = (a, some e) ∧
      tr1 = tr ++ [⟨c, (a, some e)⟩]) ∨
    (∃ a, w.respond tr c = (a, none) ∧ Seq w cs (tr ++ [⟨c, (a, none)⟩]) oe tr1)


/-- The two deployments of a `deploy...` helper: `first` (a token or the asset store) and
then `second` (the handler), with the pair `(x1, x2)` of their addresses on success. -/
def Pair (w : World) (first second : Call) (tr : Trace) (x1 x2 : Address) (oe : Option Err)
    (tr1 : Trace) : Prop :=
  (∃ a e, oe = some e ∧ x1 = zeroAddress ∧ x2 = zeroAddress ∧
      w.respond tr first = (a, some e) ∧ tr1 = tr ++ [⟨first, (a, some e)⟩]) ∨
  (∃ a1 a2 e, oe = some e ∧ x1 = zeroAddress ∧ x2 = zeroAddress ∧
      w.respond tr first = (a1, none) ∧
      w.respond (tr ++ [⟨first, (a1, none)⟩]) second = (a2, some e) ∧
      tr1 = tr ++ [⟨first, (a1, none)⟩] ++ [⟨second, (a2, some e)⟩]) ∨
  (∃ a1 a2, oe = none ∧ w.respond tr first = (a1, none) ∧
      w.respond (tr ++ [⟨first, (a1, none)⟩]) second = (a2, none) ∧
      tr1 = tr ++ [⟨first, (a1, none)⟩] ++ [⟨second, (a2, none)⟩] ∧
      x1 = a1 ∧ x2 = a2)


/-! ## The shape of a run of `PrepareLocalEVME2EEnv` -/

/-- The value returned by the call at position `i` of a trace (`0` when there is none). -/
def valAt (tr : Trace) (i : Nat) : Nat :=
  match tr[i]? with
  | some ev => ev.resp.1
  | none => 0

/-- The call at position `i` of a trace (a placeholder when there is none). -/
def callAt (tr : Trace) (i : Nat) : Call :=
  match tr[i]? with
  | some ev => ev.call
  | none => .AssetStoreDeploy

/-- The configuration assembled from the addresses returned at the deployment positions
of a trace of `PrepareLocalEVME2EEnv`. -/
def confOf (tr : Trace) : EVME2EConfig :=
  { BridgeAddr := valAt tr 0
    FeeHandlerAddr := valAt tr 2
    Erc20Addr := valAt tr 5
    Erc20HandlerAddr := valAt tr 6
    GenericHandlerAddr := valAt tr 8
    AssetStoreAddr := valAt tr 7
    Erc721Addr := valAt tr 3
    Erc721HandlerAddr := valAt tr 4
    ResourceIDERC20 := hexutilEncode resourceIDERC20
    ResourceIDERC721 := hexutilEncode resourceIDERC721
    ResourceIDGeneric := hexutilEncode resourceIDGenericHandler
    IsBasicFeeHandler := true
    Fee := some 0 }

/-- The nineteen calls of a run in which nothing fails, in the order they are issued,
written with the addresses of the configuration `conf` the run returns. -/
def successCalls (domainID : Nat) (mintTo : Address) (conf : EVME2EConfig) : List Call :=
  [ .BridgeDeploy domainID,
    .EndKeygen MpcAddress {},
    .FeeHandlerDeploy conf.BridgeAddr,
    .Erc721Deploy "TestERC721" "TST721" "",
    .Erc721HandlerDeploy conf.BridgeAddr,
    .Erc20Deploy "Test" "TST",
    .Erc20HandlerDeploy conf.BridgeAddr,
    .AssetStoreDeploy,
    .GenericHandlerDeploy conf.BridgeAddr,
    .AdminChangeFeeHandler conf.FeeHandlerAddr { GasLimit := 2000000 },
    .AdminSetResource conf.Erc20HandlerAddr resourceIDERC20 conf.Erc20Addr
      { GasLimit := 2000000 },
    .Erc20MintTokens mintTo tenTokens {},
    .Erc20ApproveTokens conf.Erc20HandlerAddr tenTokens {},
    .Erc20AddMinter conf.Erc20HandlerAddr {},
    .SetBurnableInput conf.Erc20HandlerAddr conf.Erc20Addr {},
    .AdminSetResource conf.Erc721HandlerAddr resourceIDERC721 conf.Erc721Addr
      { GasLimit := 2000000 },
    .Erc721AddMinter conf.Erc721HandlerAddr {},
    .SetBurnableInput conf.Erc721HandlerAddr conf.Erc721Addr {},
    .AdminSetGenericResource conf.GenericHandlerAddr resourceIDGenericHandler
      conf.AssetStoreAddr [0x65, 0x4c, 0xf8, 0x8c] 0 [0x65, 0x4c, 0xf8, 0x8c]
      { GasLimit := 2000000 } ]

/-- The values the calls of a successful run return: the deployments return the
addresses of `conf`, a transaction at position `i` returns the hash `h i`. -/
def successVals (conf : EVME2EConfig) (h : Nat → Nat) : List Nat :=
  [ conf.BridgeAddr, h 1, conf.FeeHandlerAddr, conf.Erc721Addr, conf.Erc721HandlerAddr,
    conf.Erc20Addr, conf.Erc20HandlerAddr, conf.AssetStoreAddr, conf.GenericHandlerAddr,
    h 9, h 10, h 11, h 12, h 13, h 14, h 15, h 16, h 17, h 18 ]

/-- The trace of a run in which nothing fails. -/
def successTrace (domainID : Nat) (mintTo : Address) (conf : EVME2EConfig) (h : Nat → Nat) :
    Trace :=
  List.zipWith (fun c v => ⟨c, (v, none)⟩) (successCalls domainID mintTo conf)
    (successVals conf h)

/-- Every event of `tr`, read after the earlier events `pre`, records what the world
answers to its call at that point. -/
def FaithfulFrom (w : World) (pre : Trace) : Trace → Prop
  | [] => True
  | ev :: rest => w.respond pre ev.call = ev.resp ∧ FaithfulFrom w (pre ++ [ev]) rest

/-- What every run of `PrepareLocalEVME2EEnv` from the empty trace looks like. -/
def Shape (w : World) (d : Nat) (m : Address) (r : (EVME2EConfig × Option Err) × Trace) :
    Prop :=
  FaithfulFrom w [] r.2 ∧
  match r.1.2 with
  | none => r.1.1 = confOf r.2 ∧ r.2 = successTrace d m r.1.1 (valAt r.2)
  | some e =>
    r.1.1 = {} ∧ r.2.length ≤ 19 ∧
    r.2 = (successTrace d m (confOf r.2) (valAt r.2)).take (r.2.length - 1) ++
      [⟨callAt (successTrace d m (confOf r.2) (valAt r.2)) (r.2.length - 1),
        (valAt r.2 (r.2.length - 1), some e)⟩]


/-- A world whose call number `n` (counting from 0) fails with error `e`; every other
call succeeds. -/
def failAt (n : Nat) (e : Err) : World :=
  ⟨7, fun tr _ => if tr.length = n then (0, some e) else (100 + tr.length, none)⟩

/-- The resource ID `PrepareLocalEVME2EEnv` computes for the asset class with
discriminator byte `d` (0 fungible, 1 generic, 2 non-fungible): the local variables of
deploy.go lines 106, 108, 110. -/
def resourceIDFor : Nat → Bytes
  | 0 => resourceIDERC20
  | 1 => resourceIDGenericHandler
  | _ => resourceIDERC721

/-- The resource IDs registered on the bridge in a trace, in the order of the
`AdminSetResource` / `AdminSetGenericResource` calls. -/
def registeredIDs (tr : Trace) : List Bytes :=
  tr.filterMap fun ev =>
    match ev.call with
    | .AdminSetResource _ rID _ _ => some rID
    | .AdminSetGenericResource _ rID _ _ _ _ _ => some rID
    | _ => none

/-- The `(handler, resource ID, token)` triples of the `AdminSetResource` calls of a
trace, in order. -/
def setResourceCalls (tr : Trace) : List (Address × Bytes × Address) :=
  tr.filterMap fun ev =>
    match ev.call with
    | .AdminSetResource h rID t _ => some (h, rID, t)
    | _ => none

/-- The `(handler, resource ID, contract)` triples of the `AdminSetGenericResource` calls
of a trace, in order. -/
def setGenericResourceCalls (tr : Trace) : List (Address × Bytes × Address) :=
  tr.filterMap fun ev =>
    match ev.call with
    | .AdminSetGenericResource h rID a _ _ _ _ => some (h, rID, a)
    | _ => none

/-- Whether a call is a deployment. -/
def Call.isDeployment : Call → Bool
  | .BridgeDeploy _ | .FeeHandlerDeploy _ | .Erc721Deploy _ _ _ | .Erc721HandlerDeploy _
  | .Erc20Deploy _ _ | .Erc20HandlerDeploy _ | .AssetStoreDeploy
  | .GenericHandlerDeploy _ => true
  | _ => false

/-- The deployments of a trace that succeeded, each with the address it returned. -/
def deployments (tr : Trace) : List (Call × Address) :=
  tr.filterMap fun ev =>
    if ev.call.isDeployment && ev.resp.2.isNone then some (ev.call, ev.resp.1) else none

/-- Whether a call deploys a token, a handler or the asset store. -/
def Call.isAssetDeployment : Call → Bool
  | .Erc721Deploy _ _ _ | .Erc721HandlerDeploy _ | .Erc20Deploy _ _
  | .Erc20HandlerDeploy _ | .AssetStoreDeploy | .GenericHandlerDeploy _ => true
  | _ => false

/-- Whether a call registers the fee handler on the bridge. -/
def Call.isFeeRegistration : Call → Bool
  | .AdminChangeFeeHandler _ _ => true
  | _ => false

/-- The order the spec's step list describes: the calls start with the bridge deployment,
`EndKeygen`, the fee-handler deployment and its registration, and no token, handler or
asset-store deployment comes before that registration. -/
def specStepOrder (calls : List Call) : Bool :=
  (match calls with
    | .BridgeDeploy _ :: .EndKeygen _ _ :: .FeeHandlerDeploy _ ::
        .AdminChangeFeeHandler _ _ :: _ => true
    | _ => false) &&
  (calls.takeWhile fun c => !c.isFeeRegistration).all fun c => !c.isAssetDeployment

/-- The bridge address a fee-handler or handler deployment receives. -/
def Call.bridgeArg : Call → Option Address
  | .FeeHandlerDeploy b | .Erc721HandlerDeploy b | .Erc20HandlerDeploy b
  | .GenericHandlerDeploy b => some b
  | _ => none

/-- The allowances granted in a trace, as `(owner, spender, amount)`: a successful
`ApproveTokens(target, amount)` transaction grants `target` an allowance of `amount`
on the account of the transaction's sender, and every transaction of
`PrepareLocalEVME2EEnv` is signed and sent by the client, `w.From`. -/
def approvals (w : World) (tr : Trace) : List (Address × Address × Nat) :=
  tr.filterMap fun ev =>
    match ev.call, ev.resp.2 with
    | .Erc20ApproveTokens target amount _, none => some (w.From, target, amount)
    | _, _ => none

/-- The fungible mints of a trace that succeeded, as `(recipient, amount)`. -/
def erc20Mints (tr : Trace) : List (Address × Nat) :=
  tr.filterMap fun ev =>
    match ev.call, ev.resp.2 with
    | .Erc20MintTokens toAddr amount _, none => some (toAddr, amount)
    | _, _ => none

/-- Whether a call mints tokens, on the fungible or on the non-fungible token. -/
def Call.isMint : Call → Bool
  | .Erc20MintTokens _ _ _ | .Erc721Mint _ _ _ _ => true
  | _ => false

/-! ## The end-to-end test suite (e2e/evm/test.go) -/

/-- The fields of `IntegrationTestSuite` (test.go 57-71) the deposit calls read.  The
defaults are the Go zero values. -/
structure IntegrationTestSuite where
  client1 : World
  client2 : World
  erc20RID : Bytes := List.replicate 32 0
  erc721RID : Bytes := List.replicate 32 0
  genericRID : Bytes := List.replicate 32 0
  config1 : EVME2EConfig := {}
  config2 : EVME2EConfig := {}
  basicFee : Option Nat := none

/-- The function `SetupEVM2EVMTestSuite` (test.go 47-55). -/
def SetupEVM2EVMTestSuite (client1 client2 : World) : IntegrationTestSuite :=
  { client1 := client1
    client2 := client2
    basicFee := some 1000000000 }

/-- The function `SetupSuite` (test.go 73-91); `Except.error err` stands for the aborting call on
`err`.  Each client starts with an empty trace. -/
def SetupSuite (s : IntegrationTestSuite) : Except Err IntegrationTestSuite :=
  match PrepareLocalEVME2EEnv s.client1 1 s.client1.From [] with
  | ((_, some err), _) => .error err
  | ((config1, none), _) =>
  let s := { s with config1 := config1 }
  match PrepareLocalEVME2EEnv s.client2 2 s.client2.From [] with
  | ((_, some err), _) => .error err
  | ((config2, none), _) =>
  let s := { s with config2 := config2 }
  let s := { s with erc20RID := SliceTo32Bytes (LeftPadBytes [0] 31) }
  let s := { s with genericRID := SliceTo32Bytes (LeftPadBytes [1] 31) }
  let s := { s with erc721RID := SliceTo32Bytes (LeftPadBytes [2] 31) }
  .ok s

/-- The parameters every deposit call ends with: resource ID, `ber`, `ter`,
`destGasPrice`, `expireTimestamp`, the two domain IDs, the two decimals, the optional
deposit-data override, the trailing flag and the transaction options. -/
structure DepositTail where
  resourceID : Bytes
  ber : String
  ter : String
  destGasPrice : Nat
  expireTimestamp : Int
  fromDomainID : Nat
  destDomainID : Nat
  tokenDecimals : Int
  etherDecimals : Int
  depositData : Option Bytes
  flag : Bool
  opts : TransactOptions
  deriving DecidableEq, Repr

/-- A deposit call on `bridgeContract1`, the bridge of chain 1. -/
inductive DepositCall where
  /-- The call `Erc20Deposit(recipient, amount, ...)`. -/
  | Erc20Deposit (recipient : Address) (amount : Nat) (tail : DepositTail)
  /-- The call `Erc721Deposit(tokenId, metadata, recipient, ...)`. -/
  | Erc721Deposit (tokenId : Nat) (metadata : String) (recipient : Address)
      (tail : DepositTail)
  /-- The call `GenericDeposit(metadata, ...)`. -/
  | GenericDeposit (metadata : Bytes) (tail : DepositTail)
  deriving DecidableEq, Repr

/-- The common parameters of a deposit call. -/
def DepositCall.tail : DepositCall → DepositTail
  | .Erc20Deposit _ _ t => t
  | .Erc721Deposit _ _ _ t => t
  | .GenericDeposit _ t => t

/-- The deposit call of `TestErc20Deposit` (test.go 113-118).  `dstAddr` is Bob's address
from the test key ring and `now` is `time.Now().Unix()` at start-up, both taken as
parameters; the package variables of test.go 28-37 are written out. -/
def erc20DepositCall (s : IntegrationTestSuite) (dstAddr : Address) (now : Int) :
    DepositCall :=
  .Erc20Deposit dstAddr 1000000
    { resourceID := s.erc20RID, ber := "1000.0", ter := "1000.0",
      destGasPrice := 1000000000, expireTimestamp := now + 3600, fromDomainID := 1,
      destDomainID := 2, tokenDecimals := 18, etherDecimals := 18, depositData := none,
      flag := false, opts := { Priority := 2, Value := s.basicFee } }

/-- The deposit call of `TestErc721Deposit` (test.go 174-180). -/
def erc721DepositCall (s : IntegrationTestSuite) (dstAddr : Address) (now : Int) :
    DepositCall :=
  .Erc721Deposit 1 "metadata.url" dstAddr
    { resourceID := s.erc721RID, ber := "1000.0", ter := "1000.0",
      destGasPrice := 1000000000, expireTimestamp := now + 3600, fromDomainID := 1,
      destDomainID := 2, tokenDecimals := 18, etherDecimals := 18, depositData := none,
      flag := false, opts := { Value := s.basicFee } }

/-- The deposit call of `TestGenericDeposit` (test.go 210-214); `hash` is the hash the
test computes with the substrate library. -/
def genericDepositCall (s : IntegrationTestSuite) (hash : Bytes) (now : Int) :
    DepositCall :=
  .GenericDeposit hash
    { resourceID := s.genericRID, ber := "1000.0", ter := "1000.0",
      destGasPrice := 1000000000, expireTimestamp := now + 3600, fromDomainID := 1,
      destDomainID := 2, tokenDecimals := 18, etherDecimals := 18, depositData := none,
      flag := false, opts := { Priority := 0, Value := s.basicFee } }

/-- The suite after `SetupSuite` on two copies of `okWorld`. -/
def sampleSuite : IntegrationTestSuite :=
  match SetupSuite (SetupEVM2EVMTestSuite okWorld okWorld) with
  | .ok s => s
  | .error _ => SetupEVM2EVMTestSuite okWorld okWorld

/-! ## The keyshare store (keyshare/keyshare.go) -/

/-- The struct `Keyshare` (keyshare.go 19-23).  `κ` is the type of
`keygen.LocalPartySaveData`, which lives in a library; a `peer.ID` is a string. -/
structure Keyshare (κ : Type) where
  Key : κ
  Threshold : Int
  Peers : List String
  deriving DecidableEq, Repr

/-- The zero value `Keyshare{}`. -/
def Keyshare.zero (κ : Type) [Inhabited κ] : Keyshare κ := ⟨default, 0, []⟩

/-- The file at `ks.path`: `none` when it does not exist, otherwise its content. -/
abbrev File := Option Bytes

/-- What lies outside keyshare.go: the JSON codec of the standard library and the ways
the operating system can refuse an operation.
* `marshal k` is `json.Marshal(&k)`;
* `unmarshal kb` is the value of `k` and the error after `json.Unmarshal(kb, &k)` on a
  zero `k`;
* `openErr file` is the error of `os.OpenFile`, if it fails;
* `writeErr kb` is `none` when `f.Write(kb)` writes all of `kb`, and `some (n, err)` when
  it stops after `n` bytes with the error `err`;
* `notExist` is the error of reading a file that does not exist. -/
structure KeyEnv (κ : Type) where
  marshal : Keyshare κ → Bytes × Option Err
  unmarshal : Bytes → Keyshare κ × Option Err
  openErr : File → Option Err
  writeErr : Bytes → Option (Nat × Err)
  notExist : Err

/-- The content of the file after a successful `os.OpenFile` with `O_CREATE` and, when
`trunc` is set, `O_TRUNC`: a missing file is created empty, an existing one is cut to
length 0 when `trunc` is set and left alone otherwise. -/
def openContent (trunc : Bool) (file : File) : Bytes :=
  match file with
  | none => []
  | some content => if trunc then [] else content

/-- Writing `b` at offset 0 over `content`: the first `len b` bytes are replaced, any
later bytes stay. -/
def writeAtStart (content b : Bytes) : Bytes :=
  b ++ content.drop b.length

/-- The function `StoreKeyshare` (keyshare.go 58-72).  Returns the error and the file afterwards.
The deferred `f.Close()` does not change the content. -/
def StoreKeyshare {κ : Type} (env : KeyEnv κ) (keyshare : Keyshare κ) (file : File) :
    Option Err × File :=
  match env.openErr file with
  | some err => (some err, file)
  | none =>
  let f : Bytes := openContent true file
  match env.marshal keyshare with
  | (_, some err) => (some err, some f)
  | (kb, none) =>
  match env.writeErr kb with
  | some (n, err) => (some err, some (writeAtStart f (kb.take n)))
  | none => (none, some (writeAtStart f kb))

/-- The call `ioutil.ReadFile(path)` on a file modelled as a byte string: a missing file is an
error, an existing file yields its content. -/
def readFile (notExist : Err) (file : File) : Bytes × Option Err :=
  match file with
  | none => ([], some notExist)
  | some content => (content, none)

/-- The function `GetKeyshare` (keyshare.go 76-90). -/
def GetKeyshare {κ : Type} [Inhabited κ] (env : KeyEnv κ) (file : File) :
    Keyshare κ × Option Err :=
  let k := Keyshare.zero κ
  match readFile env.notExist file with
  | (_, some err) => (k, some ("error on reading keyshare file: " ++ err))
  | (kb, none) =>
  match env.unmarshal kb with
  | (k, some err) => (k, some ("error on unmarshaling keyshare file: " ++ err))
  | (k, none) => (k, none)

/-- A small codec for keyshares without peers and with a non-negative threshold: the
encoding is the one byte string holding the threshold. -/
def sampleEnv : KeyEnv Unit where
  marshal k :=
    if k.Peers = [] ∧ 0 ≤ k.Threshold then ([k.Threshold.toNat], none)
    else ([], some "unsupported keyshare")
  unmarshal kb :=
    match kb with
    | [n] => (⟨(), (n : Int), []⟩, none)
    | _ => (Keyshare.zero Unit, some "malformed keyshare")
  openErr _ := none
  writeErr _ := none
  notExist := "no such file or directory"

/-! # Lemmas and theorems -/

/-! ## Unfolding the provisioning functions into single calls -/

theorem invoke_iff (w : World) (c : Call) (tr tr1 : Trace) (r : Response) :
    invoke w c tr = (r, tr1) ↔ w.respond tr c = r ∧ tr1 = tr ++ [⟨c, r⟩] := by
  unfold invoke
  constructor
  · intro h
    simp only [Prod.mk.injEq] at h
    obtain ⟨h1, h2⟩ := h
    subst h1
    exact ⟨rfl, h2.symm⟩
  · rintro ⟨h1, h2⟩
    subst h1
    subst h2
    rfl

theorem deployErc721_iff (w : World) (b : Address) (tr tr1 : Trace) (x : Address × Address)
    (oe : Option Err) :
    deployErc721 w b tr = ((x, oe), tr1) ↔
      Pair w (.Erc721Deploy "TestERC721" "TST721" "") (.Erc721HandlerDeploy b) tr x.1 x.2 oe tr1 := by
  unfold Pair
  obtain ⟨x1, x2⟩ := x
  constructor
  · intro h
    unfold deployErc721 at h
    repeat' split at h
    all_goals simp only [invoke_iff, Prod.mk.injEq, reduceCtorEq, false_and, and_false] at *
    all_goals casesm* _ ∧ _
    all_goals subst_vars
    all_goals simp_all
  · intro h
    unfold deployErc721
    casesm* _ ∨ _, ∃ _, _, _ ∧ _
    all_goals subst_vars
    all_goals simp only [invoke, *]

theorem deployErc20_iff (w : World) (b : Address) (tr tr1 : Trace) (x : Address × Address)
    (oe : Option Err) :
    deployErc20 w b tr = ((x, oe), tr1) ↔
      Pair w (.Erc20Deploy "Test" "TST") (.Erc20HandlerDeploy b) tr x.1 x.2 oe tr1 := by
  unfold Pair
  obtain ⟨x1, x2⟩ := x
  constructor
  · intro h
    unfold deployErc20 at h
    repeat' split at h
    all_goals simp only [invoke_iff, Prod.mk.injEq, reduceCtorEq, false_and, and_false] at *
    all_goals casesm* _ ∧ _
    all_goals subst_vars
    all_goals simp_all
  · intro h
    unfold deployErc20
    casesm* _ ∨ _, ∃ _, _, _ ∧ _
    all_goals subst_vars
    all_goals simp only [invoke, *]

theorem deployGeneric_iff (w : World) (b : Address) (tr tr1 : Trace) (x : Address × Address)
    (oe : Option Err) :
    deployGeneric w b tr = ((x, oe), tr1) ↔
      Pair w .AssetStoreDeploy (.GenericHandlerDeploy b) tr x.2 x.1 oe tr1 := by
  unfold Pair
  obtain ⟨x1, x2⟩ := x
  constructor
  · intro h
    unfold deployGeneric at h
    repeat' split at h
    all_goals simp only [invoke_iff, Prod.mk.injEq, reduceCtorEq, false_and, and_false] at *
    all_goals casesm* _ ∧ _
    all_goals subst_vars
    all_goals simp_all
  · intro h
    unfold deployGeneric
    casesm* _ ∨ _, ∃ _, _, _ ∧ _
    all_goals subst_vars
    all_goals simp only [invoke, *]

theorem PrepareFeeEnv_iff (w : World) (f : Address) (tr tr1 : Trace) (oe : Option Err) :
    PrepareFeeEnv w f tr = (oe, tr1) ↔
      Seq w [.AdminChangeFeeHandler f { GasLimit := 2000000 }] tr oe tr1 := by
  simp only [Seq]
  constructor
  · intro h
    unfold PrepareFeeEnv at h
    repeat' split at h
    all_goals simp only [invoke_iff, Prod.mk.injEq, reduceCtorEq, false_and, and_false] at *
    all_goals casesm* _ ∧ _
    all_goals subst_vars
    all_goals simp_all
  · intro h
    unfold PrepareFeeEnv
    casesm* _ ∨ _, ∃ _, _, _ ∧ _
    all_goals subst_vars
    all_goals simp only [invoke, *]

theorem PrepareErc20EVME2EEnv_iff (w : World) (mintTo : Address) (conf : EVME2EConfig)
    (rid : Bytes) (tr tr1 : Trace) (oe : Option Err) :
    PrepareErc20EVME2EEnv w mintTo conf rid tr = (oe, tr1) ↔
      Seq w [.AdminSetResource conf.Erc20HandlerAddr rid conf.Erc20Addr { GasLimit := 2000000 },
        .Erc20MintTokens mintTo tenTokens {},
        .Erc20ApproveTokens conf.Erc20HandlerAddr tenTokens {},
        .Erc20AddMinter conf.Erc20HandlerAddr {},
        .SetBurnableInput conf.Erc20HandlerAddr conf.Erc20Addr {}] tr oe tr1 := by
  simp only [Seq]
  constructor
  · intro h
    unfold PrepareErc20EVME2EEnv at h
    repeat' split at h
    all_goals simp only [invoke_iff, Prod.mk.injEq, reduceCtorEq, false_and, and_false] at *
    all_goals casesm* _ ∧ _
    all_goals subst_vars
    all_goals simp_all
  · intro h
    unfold PrepareErc20EVME2EEnv
    casesm* _ ∨ _, ∃ _, _, _ ∧ _
    all_goals subst_vars
    all_goals simp only [invoke, *]

theorem PrepareErc721EVME2EEnv_iff (w : World) (conf : EVME2EConfig)
    (rid : Bytes) (tr tr1 : Trace) (oe : Option Err) :
    PrepareErc721EVME2EEnv w conf rid tr = (oe, tr1) ↔
      Seq w [.AdminSetResource conf.Erc721HandlerAddr rid conf.Erc721Addr { GasLimit := 2000000 },
        .Erc721AddMinter conf.Erc721HandlerAddr {},
        .SetBurnableInput conf.Erc721HandlerAddr conf.Erc721Addr {}] tr oe tr1 := by
  simp only [Seq]
  constructor
  · intro h
    unfold PrepareErc721EVME2EEnv at h
    repeat' split at h
    all_goals simp only [invoke_iff, Prod.mk.injEq, reduceCtorEq, false_and, and_false] at *
    all_goals casesm* _ ∧ _
    all_goals subst_vars
    all_goals simp_all
  · intro h
    unfold PrepareErc721EVME2EEnv
    casesm* _ ∨ _, ∃ _, _, _ ∧ _
    all_goals subst_vars
    all_goals simp only [invoke, *]

theorem PrepareGenericEVME2EEnv_iff (w : World) (conf : EVME2EConfig)
    (rid : Bytes) (tr tr1 : Trace) (oe : Option Err) :
    PrepareGenericEVME2EEnv w conf rid tr = (oe, tr1) ↔
      Seq w [.AdminSetGenericResource conf.GenericHandlerAddr rid conf.AssetStoreAddr
        [0x65, 0x4c, 0xf8, 0x8c] 0 [0x65, 0x4c, 0xf8, 0x8c] { GasLimit := 2000000 }] tr oe tr1 := by
  simp only [Seq]
  constructor
  · intro h
    unfold PrepareGenericEVME2EEnv at h
    repeat' split at h
    all_goals simp only [invoke_iff, Prod.mk.injEq, reduceCtorEq, false_and, and_false] at *
    all_goals casesm* _ ∧ _
    all_goals subst_vars
    all_goals simp_all
  · intro h
    unfold PrepareGenericEVME2EEnv
    casesm* _ ∨ _, ∃ _, _, _ ∧ _
    all_goals subst_vars
    all_goals simp only [invoke, *]

theorem prepare_shape (w : World) (d : Nat) (m : Address) :
    Shape w d m (PrepareLocalEVME2EEnv w d m []) := by
  unfold PrepareLocalEVME2EEnv
  simp only []
  repeat' split
  all_goals simp only [invoke_iff, deployErc721_iff, deployErc20_iff, deployGeneric_iff,
    PrepareFeeEnv_iff, PrepareErc20EVME2EEnv_iff, PrepareErc721EVME2EEnv_iff,
    PrepareGenericEVME2EEnv_iff, Seq, Pair, Prod.mk.injEq, reduceCtorEq, false_and, and_false,
    exists_false, false_or, or_false, Option.some.injEq, List.nil_append] at *
  all_goals casesm* _ ∨ _, ∃ _, _, _ ∧ _
  all_goals subst_vars
  all_goals try simp only [List.append_assoc, List.singleton_append, List.cons_append,
    List.nil_append] at *
  all_goals refine ⟨?_, ?_⟩
  all_goals first
    | (simp only [FaithfulFrom, List.append_assoc, List.singleton_append, List.cons_append,
        List.nil_append, and_true]
       simp only [*, and_self])
    | exact ⟨rfl, rfl⟩
    | exact ⟨rfl, by simp, rfl⟩

/-! ## Consequences of the shape of a run -/

theorem prepare_success (w : World) (d : Nat) (m : Address) (conf : EVME2EConfig) (tr : Trace)
    (h : PrepareLocalEVME2EEnv w d m [] = ((conf, none), tr)) :
    FaithfulFrom w [] tr ∧ conf = confOf tr ∧ ∃ hs : Nat → Nat, tr = successTrace d m conf hs := by
  have hsh := prepare_shape w d m
  rw [h] at hsh
  obtain ⟨hf, hc, ht⟩ := hsh
  exact ⟨hf, hc, _, ht⟩

/-! ## C1: the layout of the resource IDs -/

/-- C1, counterexample: for the generic class (discriminator byte 1) the resource ID
that `PrepareLocalEVME2EEnv` computes and registers is not the byte 1 left-padded with
zeros to 32 bytes: its byte 31 is 0 and its byte 30 is 1. -/
theorem resourceID_generic_not_leftPadTo32 :
    resourceIDFor 1 ≠ leftPadTo32 1 ∧ (resourceIDFor 1)[31]? = some 0 ∧
      (resourceIDFor 1)[30]? = some 1 ∧
      resourceIDFor 1 ∈ registeredIDs (PrepareLocalEVME2EEnv okWorld 1 9 []).2 := by
  decide

/-- C1, amended: for every discriminator byte `c` in {0, 1, 2} the resource ID that
`PrepareLocalEVME2EEnv` computes is 32 bytes long and consists of 30 zero bytes, then
`c` at byte 30, then a zero byte at byte 31 (`c` left-padded to 31 bytes and then
extended by one zero byte on the right); in every successful run exactly these three
IDs are registered on the bridge, for the fungible, the non-fungible and the generic
class in this order. -/
theorem resourceID_layout (w : World) (d : Nat) (m : Address) (conf : EVME2EConfig)
    (tr : Trace) (h : PrepareLocalEVME2EEnv w d m [] = ((conf, none), tr)) :
    (∀ c ∈ [0, 1, 2], resourceIDFor c = List.replicate 30 0 ++ [c, 0] ∧
        (resourceIDFor c).length = 32) ∧
      registeredIDs tr = [resourceIDFor 0, resourceIDFor 2, resourceIDFor 1] := by
  refine ⟨by decide, ?_⟩
  obtain ⟨-, -, hs, rfl⟩ := prepare_success w d m conf tr h
  rfl

/-- C1, witness: the run on `okWorld` succeeds and registers the three IDs. -/
theorem resourceID_layout_witness :
    PrepareLocalEVME2EEnv okWorld 1 9 [] =
        (((PrepareLocalEVME2EEnv okWorld 1 9 []).1.1, none),
          (PrepareLocalEVME2EEnv okWorld 1 9 []).2) ∧
    (∀ c ∈ [0, 1, 2], resourceIDFor c = List.replicate 30 0 ++ [c, 0] ∧
        (resourceIDFor c).length = 32) ∧
      registeredIDs (PrepareLocalEVME2EEnv okWorld 1 9 []).2 =
        [resourceIDFor 0, resourceIDFor 2, resourceIDFor 1] :=
  ⟨by decide, resourceID_layout okWorld 1 9 (PrepareLocalEVME2EEnv okWorld 1 9 []).1.1
    (PrepareLocalEVME2EEnv okWorld 1 9 []).2 (by decide)⟩

theorem prepare_failure (w : World) (d : Nat) (m : Address) (conf : EVME2EConfig) (e : Err)
    (tr : Trace) (h : PrepareLocalEVME2EEnv w d m [] = ((conf, some e), tr)) :
    FaithfulFrom w [] tr ∧ conf = {} ∧
      ∃ (hs : Nat → Nat) (n a : Nat), n < 19 ∧
        tr = (successTrace d m (confOf tr) hs).take n ++
          [⟨callAt (successTrace d m (confOf tr) hs) n, (a, some e)⟩] := by
  have hsh := prepare_shape w d m
  rw [h] at hsh
  obtain ⟨hf, hc, hl, ht⟩ := hsh
  refine ⟨hf, hc, valAt tr, tr.length - 1, _, ?_, ht⟩
  have : (((conf, some e), tr) : (EVME2EConfig × Option Err) × Trace).2 = tr := rfl
  rw [this] at hl
  omega

theorem FaithfulFrom_getElem (w : World) (tr : Trace) :
    ∀ (pre : Trace) (k : Nat) (ev : Event), FaithfulFrom w pre tr → tr[k]? = some ev →
      w.respond (pre ++ tr.take k) ev.call = ev.resp := by
  induction tr with
  | nil => intro pre k ev _ hk; simp at hk
  | cons x rest ih =>
    intro pre k ev hf hk
    obtain ⟨hx, hrest⟩ := hf
    cases k with
    | zero =>
      simp only [List.getElem?_cons_zero, Option.some.injEq] at hk
      subst hk
      simpa using hx
    | succ j =>
      simp only [List.getElem?_cons_succ] at hk
      have := ih (pre ++ [x]) j ev hrest hk
      simpa using this

theorem successTrace_ok (d : Nat) (m : Address) (conf : EVME2EConfig) (hs : Nat → Nat) :
    ∀ ev ∈ successTrace d m conf hs, ev.resp.2 = none := by
  intro ev hev
  simp only [successTrace, successCalls, successVals, List.zipWith, List.mem_cons,
    List.mem_singleton, List.not_mem_nil, or_false] at hev
  casesm* _ ∨ _
  all_goals subst_vars
  all_goals rfl

theorem successTrace_length (d : Nat) (m : Address) (conf : EVME2EConfig) (hs : Nat → Nat) :
    (successTrace d m conf hs).length = 19 := rfl

/-- A run returns no error exactly when none of the calls it made returned one; it then
has made all nineteen calls. -/
theorem provisioning_succeeds_iff (w : World) (d : Nat) (m : Address) :
    ((PrepareLocalEVME2EEnv w d m []).1.2 = none ↔
        ∀ ev ∈ (PrepareLocalEVME2EEnv w d m []).2, ev.resp.2 = none) ∧
      ((PrepareLocalEVME2EEnv w d m []).1.2 = none →
        (PrepareLocalEVME2EEnv w d m []).2.length = 19) := by
  rcases hr : PrepareLocalEVME2EEnv w d m [] with ⟨⟨conf, oe⟩, tr⟩
  cases oe with
  | none =>
    obtain ⟨-, -, hs, ht⟩ := prepare_success w d m conf tr hr
    refine ⟨⟨fun _ => ?_, fun _ => rfl⟩, fun _ => ?_⟩
    · rw [ht]
      exact successTrace_ok d m conf hs
    · show tr.length = 19
      rw [ht]
      rfl
  | some e =>
    obtain ⟨-, -, hs, n, a, -, ht⟩ := prepare_failure w d m conf e tr hr
    generalize successTrace d m (confOf tr) hs = full at ht
    refine ⟨⟨fun h => ?_, fun h => ?_⟩, fun h => ?_⟩
    · cases h
    · have hmem : (⟨callAt full n, (a, some e)⟩ : Event) ∈ tr := by
        rw [ht]
        simp
      have := h _ hmem
      cases this
    · cases h

/-! ## C2: a failing call aborts the run with its error -/

/-- C2: let `ev` be the call at position `k` of the calls `PrepareLocalEVME2EEnv` makes
(from a fresh client).  If the binding layer answers that call, after the calls before
it, with the error `e`, then `PrepareLocalEVME2EEnv` returns the empty `EVME2EConfig`
together with exactly `e`, and the call at position `k` is the last one it makes. -/
theorem error_aborts_provisioning (w : World) (d : Nat) (m : Address) (k : Nat) (ev : Event)
    (e : Err) (hk : (PrepareLocalEVME2EEnv w d m []).2[k]? = some ev)
    (he : (w.respond ((PrepareLocalEVME2EEnv w d m []).2.take k) ev.call).2 = some e) :
    (PrepareLocalEVME2EEnv w d m []).1 = ({}, some e) ∧
      (PrepareLocalEVME2EEnv w d m []).2.length = k + 1 := by
  rcases hr : PrepareLocalEVME2EEnv w d m [] with ⟨⟨conf, oe⟩, tr⟩
  rw [hr] at hk he
  simp only at hk he ⊢
  cases oe with
  | none =>
    obtain ⟨hf, -, hs, ht⟩ := prepare_success w d m conf tr hr
    have h1 := FaithfulFrom_getElem w tr [] k ev hf hk
    rw [List.nil_append, ] at h1
    rw [h1] at he
    have h2 := successTrace_ok d m conf hs ev (ht ▸ List.getElem?_mem hk)
    rw [h2] at he
    cases he
  | some e1 =>
    obtain ⟨hf, hc, hs, n, a, hn, ht⟩ := prepare_failure w d m conf e1 tr hr
    have h1 := FaithfulFrom_getElem w tr [] k ev hf hk
    rw [List.nil_append, ] at h1
    rw [h1] at he
    have hlen : ((successTrace d m (confOf tr) hs).take n).length = n := by
      rw [List.length_take, successTrace_length]
      omega
    have hk2 := hk
    rw [ht] at hk2
    by_cases hlt : k < n
    · rw [List.getElem?_append_left (by omega)] at hk2
      have h2 := successTrace_ok d m (confOf tr) hs ev
        (List.mem_of_mem_take (List.getElem?_mem hk2))
      rw [h2] at he
      cases he
    · rw [List.getElem?_append_right (by omega), hlen] at hk2
      have hkn : k - n = 0 := by
        by_contra hne
        obtain ⟨j, hj⟩ : ∃ j, k - n = j + 1 := ⟨k - n - 1, by omega⟩
        rw [hj] at hk2
        simp at hk2
      rw [hkn] at hk2
      simp only [List.getElem?_cons_zero, Option.some.injEq] at hk2
      subst hk2
      simp only [Option.some.injEq] at he
      subst he
      subst hc
      refine ⟨rfl, ?_⟩
      have hl2 : tr.length = n + 1 := by
        rw [ht, List.length_append, hlen]
        rfl
      omega

/-- C2, witness: in the world `failAt 11 "mint failed"` the call at position 11 (the
mint) returns an error; `PrepareLocalEVME2EEnv` returns that error with the empty
configuration after twelve calls. -/
theorem error_aborts_provisioning_witness :
    (PrepareLocalEVME2EEnv (failAt 11 "mint failed") 1 9 []).2[11]? =
        some ⟨.Erc20MintTokens 9 tenTokens {}, (0, some "mint failed")⟩ ∧
      ((failAt 11 "mint failed").respond
          ((PrepareLocalEVME2EEnv (failAt 11 "mint failed") 1 9 []).2.take 11)
          (Call.Erc20MintTokens 9 tenTokens {})).2 = some "mint failed" ∧
      (PrepareLocalEVME2EEnv (failAt 11 "mint failed") 1 9 []).1 = ({}, some "mint failed") ∧
      (PrepareLocalEVME2EEnv (failAt 11 "mint failed") 1 9 []).2.length = 11 + 1 :=
  ⟨by decide, by decide,
    error_aborts_provisioning (failAt 11 "mint failed") 1 9 11
      ⟨.Erc20MintTokens 9 tenTokens {}, (0, some "mint failed")⟩ "mint failed"
      (by decide) (by decide)⟩

/-! ## C3: the bridge is deployed first and its address reaches every handler -/

/-- C3: in every run of `PrepareLocalEVME2EEnv` (from a fresh client) the first
binding-layer call is the bridge deployment with the given `domainID`; if that
deployment returns an error it stays the only call, so no fee-handler or handler
deployment is issued; and every fee-handler, ERC20-handler, ERC721-handler and
generic-handler deployment that is issued receives as its bridge address exactly the
address the bridge deployment returned. -/
theorem bridge_deployed_first (w : World) (d : Nat) (m : Address) :
    (∃ rest, (PrepareLocalEVME2EEnv w d m []).2 =
        ⟨.BridgeDeploy d, w.respond [] (.BridgeDeploy d)⟩ :: rest) ∧
      ((w.respond [] (.BridgeDeploy d)).2 ≠ none →
        (PrepareLocalEVME2EEnv w d m []).2 =
          [⟨.BridgeDeploy d, w.respond [] (.BridgeDeploy d)⟩]) ∧
      (∀ ev ∈ (PrepareLocalEVME2EEnv w d m []).2, ∀ b, ev.call.bridgeArg = some b →
        b = (w.respond [] (.BridgeDeploy d)).1) := by
  suffices key : ∀ r, PrepareLocalEVME2EEnv w d m [] = r →
      (∃ rest, r.2 = ⟨.BridgeDeploy d, w.respond [] (.BridgeDeploy d)⟩ :: rest) ∧
      ((w.respond [] (.BridgeDeploy d)).2 ≠ none →
        r.2 = [⟨.BridgeDeploy d, w.respond [] (.BridgeDeploy d)⟩]) ∧
      (∀ ev ∈ r.2, ∀ b, ev.call.bridgeArg = some b →
        b = (w.respond [] (.BridgeDeploy d)).1) from key _ rfl
  intro r hr
  unfold PrepareLocalEVME2EEnv at hr
  simp only [] at hr
  repeat' split at hr
  all_goals simp only [invoke_iff, deployErc721_iff, deployErc20_iff, deployGeneric_iff,
    PrepareFeeEnv_iff, PrepareErc20EVME2EEnv_iff, PrepareErc721EVME2EEnv_iff,
    PrepareGenericEVME2EEnv_iff, Seq, Pair, Prod.mk.injEq, reduceCtorEq, false_and, and_false,
    exists_false, false_or, or_false, Option.some.injEq, List.nil_append] at *
  all_goals casesm* _ ∨ _, ∃ _, _, _ ∧ _
  all_goals subst_vars
  all_goals try simp only [List.append_assoc, List.singleton_append, List.cons_append,
    List.nil_append] at *
  all_goals refine ⟨?_, ?_, ?_⟩
  all_goals first
    | (simp only [*]; exact ⟨_, rfl⟩)
    | (intro ev hev b hb
       simp only [List.mem_cons, List.mem_singleton, List.not_mem_nil, or_false] at hev
       simp only [*]
       try casesm* _ ∨ _
       all_goals subst_vars
       all_goals first
         | exact (Option.some.inj hb).symm
         | cases hb)
    | (intro hne
       first
         | (simp only [*] at hne; exact absurd rfl hne)
         | simp only [*])

/-! ## C4: the registrations use the addresses and IDs of the returned configuration -/

/-- C4: in every successful run of `PrepareLocalEVME2EEnv` the bridge receives exactly
two `AdminSetResource` registrations, the fungible one with the ERC20 handler, the
fungible resource ID and the ERC20 token of the returned configuration and the
non-fungible one with the ERC721 handler, the non-fungible resource ID and the ERC721
token, and exactly one `AdminSetGenericResource` registration with the generic handler,
the generic resource ID and the asset store; each registered ID hex-encodes to the
configuration's resource-ID string of the same class; and every address used is the one
returned by the matching deployment of this same run. -/
theorem registrations_match_config (w : World) (d : Nat) (m : Address) (conf : EVME2EConfig)
    (tr : Trace) (h : PrepareLocalEVME2EEnv w d m [] = ((conf, none), tr)) :
    setResourceCalls tr =
        [(conf.Erc20HandlerAddr, resourceIDERC20, conf.Erc20Addr),
          (conf.Erc721HandlerAddr, resourceIDERC721, conf.Erc721Addr)] ∧
      setGenericResourceCalls tr =
        [(conf.GenericHandlerAddr, resourceIDGenericHandler, conf.AssetStoreAddr)] ∧
      hexutilEncode resourceIDERC20 = conf.ResourceIDERC20 ∧
      hexutilEncode resourceIDERC721 = conf.ResourceIDERC721 ∧
      hexutilEncode resourceIDGenericHandler = conf.ResourceIDGeneric ∧
      deployments tr =
        [(.BridgeDeploy d, conf.BridgeAddr),
          (.FeeHandlerDeploy conf.BridgeAddr, conf.FeeHandlerAddr),
          (.Erc721Deploy "TestERC721" "TST721" "", conf.Erc721Addr),
          (.Erc721HandlerDeploy conf.BridgeAddr, conf.Erc721HandlerAddr),
          (.Erc20Deploy "Test" "TST", conf.Erc20Addr),
          (.Erc20HandlerDeploy conf.BridgeAddr, conf.Erc20HandlerAddr),
          (.AssetStoreDeploy, conf.AssetStoreAddr),
          (.GenericHandlerDeploy conf.BridgeAddr, conf.GenericHandlerAddr)] := by
  obtain ⟨-, hc, hs, rfl⟩ := prepare_success w d m conf tr h
  refine ⟨rfl, rfl, ?_, ?_, ?_, rfl⟩
  · exact (congrArg EVME2EConfig.ResourceIDERC20 hc).symm
  · exact (congrArg EVME2EConfig.ResourceIDERC721 hc).symm
  · exact (congrArg EVME2EConfig.ResourceIDGeneric hc).symm

/-- C4, witness: the run on `okWorld` succeeds; its registrations are those of the
configuration it returns. -/
theorem registrations_match_config_witness :
    PrepareLocalEVME2EEnv okWorld 1 9 [] =
        (((PrepareLocalEVME2EEnv okWorld 1 9 []).1.1, none),
          (PrepareLocalEVME2EEnv okWorld 1 9 []).2) ∧
      setResourceCalls (PrepareLocalEVME2EEnv okWorld 1 9 []).2 =
        [(106, resourceIDERC20, 105), (104, resourceIDERC721, 103)] ∧
      setGenericResourceCalls (PrepareLocalEVME2EEnv okWorld 1 9 []).2 =
        [(108, resourceIDGenericHandler, 107)] :=
  ⟨by decide,
    (registrations_match_config okWorld 1 9 (PrepareLocalEVME2EEnv okWorld 1 9 []).1.1
      (PrepareLocalEVME2EEnv okWorld 1 9 []).2 (by decide)).1,
    (registrations_match_config okWorld 1 9 (PrepareLocalEVME2EEnv okWorld 1 9 []).1.1
      (PrepareLocalEVME2EEnv okWorld 1 9 []).2 (by decide)).2.1⟩

/-! ## C5: the resource IDs do not depend on the run -/

theorem SetupSuite_ok (s s1 : IntegrationTestSuite) (h : SetupSuite s = .ok s1) :
    s1.erc20RID = resourceIDERC20 ∧ s1.genericRID = resourceIDGenericHandler ∧
      s1.erc721RID = resourceIDERC721 ∧ s1.basicFee = s.basicFee ∧
      (∃ tr, PrepareLocalEVME2EEnv s.client1 1 s.client1.From [] = ((s1.config1, none), tr)) ∧
      (∃ tr, PrepareLocalEVME2EEnv s.client2 2 s.client2.From [] = ((s1.config2, none), tr)) := by
  unfold SetupSuite at h
  rcases h1 : PrepareLocalEVME2EEnv s.client1 1 s.client1.From [] with ⟨⟨c1, _ | e1⟩, t1⟩
  · rcases h2 : PrepareLocalEVME2EEnv s.client2 2 s.client2.From [] with ⟨⟨c2, _ | e2⟩, t2⟩
    · simp only [h1, h2, Except.ok.injEq] at h
      subst h
      exact ⟨rfl, rfl, rfl, rfl, ⟨t1, rfl⟩, ⟨t2, rfl⟩⟩
    · simp only [h1, h2, reduceCtorEq] at h
  · simp only [h1, reduceCtorEq] at h

/-- C5: the resource-ID strings of the configurations returned by any two successful
runs of `PrepareLocalEVME2EEnv` (any clients, domain IDs and mint recipients) are equal
class by class, and each equals the hex encoding of the resource ID that `SetupSuite`
computes on its own and that the deposit call of that class passes to the bridge. -/
theorem resourceIDs_deterministic (w1 w2 : World) (d1 d2 : Nat) (m1 m2 : Address)
    (conf1 conf2 : EVME2EConfig) (tr1 tr2 : Trace)
    (h1 : PrepareLocalEVME2EEnv w1 d1 m1 [] = ((conf1, none), tr1))
    (h2 : PrepareLocalEVME2EEnv w2 d2 m2 [] = ((conf2, none), tr2))
    (s s1 : IntegrationTestSuite) (hs : SetupSuite s = .ok s1)
    (dstAddr : Address) (hash : Bytes) (now : Int) :
    conf1.ResourceIDERC20 = conf2.ResourceIDERC20 ∧
      conf1.ResourceIDERC721 = conf2.ResourceIDERC721 ∧
      conf1.ResourceIDGeneric = conf2.ResourceIDGeneric ∧
      conf1.ResourceIDERC20 = hexutilEncode (erc20DepositCall s1 dstAddr now).tail.resourceID ∧
      conf1.ResourceIDERC721 =
        hexutilEncode (erc721DepositCall s1 dstAddr now).tail.resourceID ∧
      conf1.ResourceIDGeneric =
        hexutilEncode (genericDepositCall s1 hash now).tail.resourceID := by
  obtain ⟨-, hc1, -⟩ := prepare_success w1 d1 m1 conf1 tr1 h1
  obtain ⟨-, hc2, -⟩ := prepare_success w2 d2 m2 conf2 tr2 h2
  obtain ⟨r20, rg, r721, -⟩ := SetupSuite_ok s s1 hs
  have a1 := congrArg EVME2EConfig.ResourceIDERC20 hc1
  have a2 := congrArg EVME2EConfig.ResourceIDERC721 hc1
  have a3 := congrArg EVME2EConfig.ResourceIDGeneric hc1
  have b1 := congrArg EVME2EConfig.ResourceIDERC20 hc2
  have b2 := congrArg EVME2EConfig.ResourceIDERC721 hc2
  have b3 := congrArg EVME2EConfig.ResourceIDGeneric hc2
  simp only [confOf] at a1 a2 a3 b1 b2 b3
  simp only [erc20DepositCall, erc721DepositCall, genericDepositCall, DepositCall.tail, r20,
    rg, r721]
  rw [a1, a2, a3, b1, b2, b3]
  exact ⟨rfl, rfl, rfl, rfl, rfl, rfl⟩

/-- C5, witness: two successful runs with different domain IDs and recipients, and the
suite set up on two copies of `okWorld`. -/
theorem resourceIDs_deterministic_witness :
    PrepareLocalEVME2EEnv okWorld 1 9 [] =
        (((PrepareLocalEVME2EEnv okWorld 1 9 []).1.1, none),
          (PrepareLocalEVME2EEnv okWorld 1 9 []).2) ∧
      PrepareLocalEVME2EEnv (failAt 50 "never") 2 4 [] =
        (((PrepareLocalEVME2EEnv (failAt 50 "never") 2 4 []).1.1, none),
          (PrepareLocalEVME2EEnv (failAt 50 "never") 2 4 []).2) ∧
      SetupSuite (SetupEVM2EVMTestSuite okWorld okWorld) = .ok sampleSuite ∧
      (PrepareLocalEVME2EEnv okWorld 1 9 []).1.1.ResourceIDGeneric =
        (PrepareLocalEVME2EEnv (failAt 50 "never") 2 4 []).1.1.ResourceIDGeneric ∧
      (PrepareLocalEVME2EEnv okWorld 1 9 []).1.1.ResourceIDGeneric =
        hexutilEncode (genericDepositCall sampleSuite [1, 2] 0).tail.resourceID :=
  ⟨by decide, by decide, rfl,
    (resourceIDs_deterministic okWorld (failAt 50 "never") 1 2 9 4
      (PrepareLocalEVME2EEnv okWorld 1 9 []).1.1
      (PrepareLocalEVME2EEnv (failAt 50 "never") 2 4 []).1.1
      (PrepareLocalEVME2EEnv okWorld 1 9 []).2
      (PrepareLocalEVME2EEnv (failAt 50 "never") 2 4 []).2 (by decide)
      (by decide) (SetupEVM2EVMTestSuite okWorld okWorld) sampleSuite rfl 5 [1, 2] 0).2.2.1,
    (resourceIDs_deterministic okWorld (failAt 50 "never") 1 2 9 4
      (PrepareLocalEVME2EEnv okWorld 1 9 []).1.1
      (PrepareLocalEVME2EEnv (failAt 50 "never") 2 4 []).1.1
      (PrepareLocalEVME2EEnv okWorld 1 9 []).2
      (PrepareLocalEVME2EEnv (failAt 50 "never") 2 4 []).2 (by decide)
      (by decide) (SetupEVM2EVMTestSuite okWorld okWorld) sampleSuite rfl 5 [1, 2] 0).2.2.2.2.2⟩

/-! ## C6: the value attached to a deposit -/

/-- C6, counterexample: for the suite set up on two copies of `okWorld` the value
attached to the fungible deposit is 1000000000, while the fee recorded in the
configuration provisioned for chain 1 is 0. -/
theorem deposit_value_differs_from_config_fee :
    SetupSuite (SetupEVM2EVMTestSuite okWorld okWorld) = .ok sampleSuite ∧
      (erc20DepositCall sampleSuite 5 0).tail.opts.Value = some 1000000000 ∧
      sampleSuite.config1.Fee = some 0 ∧
      (erc20DepositCall sampleSuite 5 0).tail.opts.Value ≠ sampleSuite.config1.Fee := by
  refine ⟨rfl, rfl, rfl, ?_⟩
  decide

/-- C6, amended: for a suite built by `SetupEVM2EVMTestSuite` and set up by `SetupSuite`,
the value attached to the deposit transaction of each deposit scenario (fungible,
non-fungible, generic) is the suite's own `basicFee`, the constant 1000000000 fixed by
`SetupEVM2EVMTestSuite`; the `Fee` field of the configuration provisioned for chain 1 is
0 and is not what the deposit attaches. -/
theorem deposit_value_is_suite_basicFee (client1 client2 : World) (s1 : IntegrationTestSuite)
    (h : SetupSuite (SetupEVM2EVMTestSuite client1 client2) = .ok s1)
    (dstAddr : Address) (hash : Bytes) (now : Int) :
    (erc20DepositCall s1 dstAddr now).tail.opts.Value = s1.basicFee ∧
      (erc721DepositCall s1 dstAddr now).tail.opts.Value = s1.basicFee ∧
      (genericDepositCall s1 hash now).tail.opts.Value = s1.basicFee ∧
      s1.basicFee = some 1000000000 ∧
      s1.config1.Fee = some 0 := by
  obtain ⟨-, -, -, hfee, ⟨tr, hrun⟩, -⟩ := SetupSuite_ok _ s1 h
  obtain ⟨-, hc, -⟩ := prepare_success _ _ _ _ _ hrun
  refine ⟨rfl, rfl, rfl, ?_, ?_⟩
  · rw [hfee]
    rfl
  · exact congrArg EVME2EConfig.Fee hc

/-- C6, witness: the suite set up on two copies of `okWorld`. -/
theorem deposit_value_is_suite_basicFee_witness :
    SetupSuite (SetupEVM2EVMTestSuite okWorld okWorld) = .ok sampleSuite ∧
      (erc721DepositCall sampleSuite 5 0).tail.opts.Value = sampleSuite.basicFee ∧
      sampleSuite.basicFee = some 1000000000 ∧
      sampleSuite.config1.Fee = some 0 :=
  ⟨rfl,
    (deposit_value_is_suite_basicFee okWorld okWorld sampleSuite rfl 5 [1, 2] 0).2.1,
    (deposit_value_is_suite_basicFee okWorld okWorld sampleSuite rfl 5 [1, 2] 0).2.2.2.1,
    (deposit_value_is_suite_basicFee okWorld okWorld sampleSuite rfl 5 [1, 2] 0).2.2.2.2⟩

/-! ## C7: who grants the approval -/

/-- C7, counterexample: on `okWorld`, whose client signs with account 7, provisioning with
mint recipient 9 succeeds; 10^19 units are minted to 9, and the only approval (spender
the fungible handler 106, amount 10^19) is granted by account 7, not by the mint
recipient. -/
theorem approval_not_granted_by_mint_recipient :
    (PrepareLocalEVME2EEnv okWorld 1 9 []).1.2 = none ∧
      erc20Mints (PrepareLocalEVME2EEnv okWorld 1 9 []).2 = [(9, tenTokens)] ∧
      approvals okWorld (PrepareLocalEVME2EEnv okWorld 1 9 []).2 = [(7, 106, tenTokens)] ∧
      ¬ ∃ a ∈ approvals okWorld (PrepareLocalEVME2EEnv okWorld 1 9 []).2, a.1 = 9 := by
  decide

/-- C7, amended: for every mint recipient, after a successful provisioning exactly one
mint (to the recipient, of 10^19 units) and exactly one approval have been made; the
approval names the fungible handler as spender, its amount equals the minted amount, and
the account granting it is the client's own account `From`.  It is the mint recipient's
approval when the recipient is that account (as in `SetupSuite`). -/
theorem approval_granted_by_client (w : World) (d : Nat) (m : Address) (conf : EVME2EConfig)
    (tr : Trace) (h : PrepareLocalEVME2EEnv w d m [] = ((conf, none), tr)) :
    erc20Mints tr = [(m, tenTokens)] ∧
      approvals w tr = [(w.From, conf.Erc20HandlerAddr, tenTokens)] ∧
      (m = w.From → approvals w tr = [(m, conf.Erc20HandlerAddr, tenTokens)]) := by
  obtain ⟨-, -, hs, rfl⟩ := prepare_success w d m conf tr h
  refine ⟨rfl, rfl, ?_⟩
  intro hm
  rw [hm]
  rfl

/-- C7, witness: the run on `okWorld` with the client's own account 7 as recipient. -/
theorem approval_granted_by_client_witness :
    PrepareLocalEVME2EEnv okWorld 1 7 [] =
        (((PrepareLocalEVME2EEnv okWorld 1 7 []).1.1, none),
          (PrepareLocalEVME2EEnv okWorld 1 7 []).2) ∧
      erc20Mints (PrepareLocalEVME2EEnv okWorld 1 7 []).2 = [(7, tenTokens)] ∧
      approvals okWorld (PrepareLocalEVME2EEnv okWorld 1 7 []).2 =
        [(okWorld.From, (PrepareLocalEVME2EEnv okWorld 1 7 []).1.1.Erc20HandlerAddr,
          tenTokens)] :=
  ⟨by decide,
    (approval_granted_by_client okWorld 1 7 (PrepareLocalEVME2EEnv okWorld 1 7 []).1.1
      (PrepareLocalEVME2EEnv okWorld 1 7 []).2 (by decide)).1,
    (approval_granted_by_client okWorld 1 7 (PrepareLocalEVME2EEnv okWorld 1 7 []).1.1
      (PrepareLocalEVME2EEnv okWorld 1 7 []).2 (by decide)).2.1⟩

/-! ## C8: the deployment helpers and the zero bridge address -/

/-- C8, counterexample: on `okWorld` each handler-deployment helper, called with the zero
address as bridge address, returns no error and its second call is the handler
deployment with the zero address. -/
theorem deploy_helpers_accept_zero_bridge :
    deployErc20 okWorld zeroAddress [] =
        (((100, 101), none),
          [⟨.Erc20Deploy "Test" "TST", (100, none)⟩,
            ⟨.Erc20HandlerDeploy zeroAddress, (101, none)⟩]) ∧
      deployErc721 okWorld zeroAddress [] =
        (((100, 101), none),
          [⟨.Erc721Deploy "TestERC721" "TST721" "", (100, none)⟩,
            ⟨.Erc721HandlerDeploy zeroAddress, (101, none)⟩]) ∧
      deployGeneric okWorld zeroAddress [] =
        (((101, 100), none),
          [⟨.AssetStoreDeploy, (100, none)⟩,
            ⟨.GenericHandlerDeploy zeroAddress, (101, none)⟩]) := by
  decide

theorem Pair_zero (w : World) (first second : Call) (tr tr1 : Trace) (x1 x2 : Address)
    (oe : Option Err) (h : Pair w first second tr x1 x2 oe tr1) :
    ((w.respond tr first).2 = none →
        tr1 = tr ++ [⟨first, w.respond tr first⟩] ++
          [⟨second, w.respond (tr ++ [⟨first, w.respond tr first⟩]) second⟩]) ∧
      (oe = none ↔ (w.respond tr first).2 = none ∧
        (w.respond (tr ++ [⟨first, w.respond tr first⟩]) second).2 = none) := by
  unfold Pair at h
  rcases h with ⟨a, e, rfl, -, -, h1, rfl⟩ | ⟨a1, a2, e, rfl, -, -, h1, h2, rfl⟩ |
    ⟨a1, a2, rfl, h1, h2, rfl, -, -⟩
  · simp [h1]
  · simp [h1, h2]
  · simp [h1, h2]

/-- C8, amended: a handler-deployment helper (`deployErc20`, `deployErc721`,
`deployGeneric`) called with the zero address as bridge address does not fail fast.  It
issues its first deployment (token or asset store) and, whenever that succeeds, issues
the handler deployment with the zero address right after it; it returns an error only
when one of these two binding-layer deployments returns one. -/
theorem deploy_helpers_pass_zero_bridge (w : World) (tr : Trace) :
    (((w.respond tr (.Erc20Deploy "Test" "TST")).2 = none →
        (deployErc20 w zeroAddress tr).2 =
          tr ++ [⟨.Erc20Deploy "Test" "TST", w.respond tr (.Erc20Deploy "Test" "TST")⟩] ++
            [⟨.Erc20HandlerDeploy zeroAddress,
              w.respond (tr ++ [⟨.Erc20Deploy "Test" "TST",
                w.respond tr (.Erc20Deploy "Test" "TST")⟩])
                (.Erc20HandlerDeploy zeroAddress)⟩]) ∧
      ((deployErc20 w zeroAddress tr).1.2 = none ↔
        (w.respond tr (.Erc20Deploy "Test" "TST")).2 = none ∧
        (w.respond (tr ++ [⟨.Erc20Deploy "Test" "TST",
          w.respond tr (.Erc20Deploy "Test" "TST")⟩])
          (.Erc20HandlerDeploy zeroAddress)).2 = none)) ∧
    (((w.respond tr (.Erc721Deploy "TestERC721" "TST721" "")).2 = none →
        (deployErc721 w zeroAddress tr).2 =
          tr ++ [⟨.Erc721Deploy "TestERC721" "TST721" "",
            w.respond tr (.Erc721Deploy "TestERC721" "TST721" "")⟩] ++
            [⟨.Erc721HandlerDeploy zeroAddress,
              w.respond (tr ++ [⟨.Erc721Deploy "TestERC721" "TST721" "",
                w.respond tr (.Erc721Deploy "TestERC721" "TST721" "")⟩])
                (.Erc721HandlerDeploy zeroAddress)⟩]) ∧
      ((deployErc721 w zeroAddress tr).1.2 = none ↔
        (w.respond tr (.Erc721Deploy "TestERC721" "TST721" "")).2 = none ∧
        (w.respond (tr ++ [⟨.Erc721Deploy "TestERC721" "TST721" "",
          w.respond tr (.Erc721Deploy "TestERC721" "TST721" "")⟩])
          (.Erc721HandlerDeploy zeroAddress)).2 = none)) ∧
    (((w.respond tr .AssetStoreDeploy).2 = none →
        (deployGeneric w zeroAddress tr).2 =
          tr ++ [⟨.AssetStoreDeploy, w.respond tr .AssetStoreDeploy⟩] ++
            [⟨.GenericHandlerDeploy zeroAddress,
              w.respond (tr ++ [⟨.AssetStoreDeploy, w.respond tr .AssetStoreDeploy⟩])
                (.GenericHandlerDeploy zeroAddress)⟩]) ∧
      ((deployGeneric w zeroAddress tr).1.2 = none ↔
        (w.respond tr .AssetStoreDeploy).2 = none ∧
        (w.respond (tr ++ [⟨.AssetStoreDeploy, w.respond tr .AssetStoreDeploy⟩])
          (.GenericHandlerDeploy zeroAddress)).2 = none)) := by
  refine ⟨?_, ?_, ?_⟩
  · exact Pair_zero w _ _ tr _ _ _ _ ((deployErc20_iff w zeroAddress tr _ _ _).1 rfl)
  · exact Pair_zero w _ _ tr _ _ _ _ ((deployErc721_iff w zeroAddress tr _ _ _).1 rfl)
  · exact Pair_zero w _ _ tr _ _ _ _ ((deployGeneric_iff w zeroAddress tr _ _ _).1 rfl)

/-! ## C9: storing and reading back a keyshare -/

theorem writeAtStart_nil (b : Bytes) : writeAtStart [] b = b := by
  simp [writeAtStart]

/-- C9: assume `json.Unmarshal` inverts `json.Marshal` on keyshares.  For every prior
state of the key file (missing, or holding any content, also one longer than the new
encoding) and every keyshare `k`: if `StoreKeyshare k` returns no error, the file then
holds exactly the encoding of `k`, with nothing of the old content left, and a following
`GetKeyshare` returns `k` and no error. -/
theorem store_then_get {κ : Type} [Inhabited κ] (env : KeyEnv κ) (k : Keyshare κ)
    (file : File)
    (hinv : ∀ (k1 : Keyshare κ) (b : Bytes), env.marshal k1 = (b, none) →
      env.unmarshal b = (k1, none))
    (hstore : (StoreKeyshare env k file).1 = none) :
    ∃ kb, env.marshal k = (kb, none) ∧ (StoreKeyshare env k file).2 = some kb ∧
      GetKeyshare env (StoreKeyshare env k file).2 = (k, none) := by
  unfold StoreKeyshare at hstore ⊢
  cases ho : env.openErr file with
  | some err => simp [ho] at hstore
  | none =>
    rcases hm : env.marshal k with ⟨kb, _ | err⟩
    · cases hw : env.writeErr kb with
      | some p => simp [ho, hm, hw] at hstore
      | none =>
        refine ⟨kb, rfl, ?_, ?_⟩
        · cases file <;> simp [hw, openContent, writeAtStart]
        · have hu := hinv k kb hm
          cases file <;> simp [hw, openContent, writeAtStart, GetKeyshare, readFile, hu]
    · simp [ho, hm] at hstore

theorem sampleEnv_inverse (k1 : Keyshare Unit) (b : Bytes)
    (h : sampleEnv.marshal k1 = (b, none)) : sampleEnv.unmarshal b = (k1, none) := by
  obtain ⟨key, t, peers⟩ := k1
  simp only [sampleEnv] at h ⊢
  split at h
  · rename_i hc
    obtain ⟨hp, ht⟩ := hc
    simp only [Prod.mk.injEq, and_true] at h
    subst h
    simp only at hp ht ⊢
    subst hp
    rw [Int.toNat_of_nonneg ht]
  · simp at h

/-- C9, witness: with the sample codec, storing the keyshare with threshold 3 over a
file that holds five bytes leaves the one-byte encoding `[3]`, and `GetKeyshare`
returns the keyshare. -/
theorem store_then_get_witness :
    (StoreKeyshare sampleEnv ⟨(), 3, []⟩ (some [9, 9, 9, 9, 9])).1 = none ∧
      ∃ kb, sampleEnv.marshal ⟨(), 3, []⟩ = (kb, none) ∧
        (StoreKeyshare sampleEnv ⟨(), 3, []⟩ (some [9, 9, 9, 9, 9])).2 = some kb ∧
        GetKeyshare sampleEnv (StoreKeyshare sampleEnv ⟨(), 3, []⟩ (some [9, 9, 9, 9, 9])).2 =
          (⟨(), 3, []⟩, none) :=
  ⟨by decide,
    store_then_get sampleEnv ⟨(), 3, []⟩ (some [9, 9, 9, 9, 9]) sampleEnv_inverse
      (by decide)⟩

/-! ## C10: the order of the calls -/

/-- C10, counterexample: the run on `okWorld` succeeds, and its calls are not in the
order of the spec's step list: the fee handler is registered on the bridge at position
9, after the token, handler and asset-store deployments at positions 3 to 8. -/
theorem fee_registration_after_deployments :
    (PrepareLocalEVME2EEnv okWorld 1 9 []).1.2 = none ∧
      specStepOrder ((PrepareLocalEVME2EEnv okWorld 1 9 []).2.map Event.call) = false ∧
      ((PrepareLocalEVME2EEnv okWorld 1 9 []).2.map Event.call)[3]? =
        some (.Erc721Deploy "TestERC721" "TST721" "") ∧
      ((PrepareLocalEVME2EEnv okWorld 1 9 []).2.map Event.call)[9]? =
        some (.AdminChangeFeeHandler 102 { GasLimit := 2000000 }) := by
  decide

/-- C10, amended: in every successful run of `PrepareLocalEVME2EEnv` the binding-layer
calls are, in this order: the bridge deployment, `EndKeygen`, the fee-handler
deployment, then the deployments of the ERC721 token and handler, the ERC20 token and
handler, the asset store and the generic handler, and only after all deployments the
registration of the fee handler on the bridge (`AdminChangeFeeHandler`), followed by the
fungible set-up (resource registration, mint, approve, add-minter, set-burnable), the
non-fungible set-up (resource registration, add-minter, set-burnable) and the generic
resource registration. -/
theorem successful_run_call_order (w : World) (d : Nat) (m : Address) (conf : EVME2EConfig)
    (tr : Trace) (h : PrepareLocalEVME2EEnv w d m [] = ((conf, none), tr)) :
    tr.map Event.call =
      [ .BridgeDeploy d,
        .EndKeygen MpcAddress {},
        .FeeHandlerDeploy conf.BridgeAddr,
        .Erc721Deploy "TestERC721" "TST721" "",
        .Erc721HandlerDeploy conf.BridgeAddr,
        .Erc20Deploy "Test" "TST",
        .Erc20HandlerDeploy conf.BridgeAddr,
        .AssetStoreDeploy,
        .GenericHandlerDeploy conf.BridgeAddr,
        .AdminChangeFeeHandler conf.FeeHandlerAddr { GasLimit := 2000000 },
        .AdminSetResource conf.Erc20HandlerAddr resourceIDERC20 conf.Erc20Addr
          { GasLimit := 2000000 },
        .Erc20MintTokens m tenTokens {},
        .Erc20ApproveTokens conf.Erc20HandlerAddr tenTokens {},
        .Erc20AddMinter conf.Erc20HandlerAddr {},
        .SetBurnableInput conf.Erc20HandlerAddr conf.Erc20Addr {},
        .AdminSetResource conf.Erc721HandlerAddr resourceIDERC721 conf.Erc721Addr
          { GasLimit := 2000000 },
        .Erc721AddMinter conf.Erc721HandlerAddr {},
        .SetBurnableInput conf.Erc721HandlerAddr conf.Erc721Addr {},
        .AdminSetGenericResource conf.GenericHandlerAddr resourceIDGenericHandler
          conf.AssetStoreAddr [0x65, 0x4c, 0xf8, 0x8c] 0 [0x65, 0x4c, 0xf8, 0x8c]
          { GasLimit := 2000000 } ] := by
  obtain ⟨-, -, hs, rfl⟩ := prepare_success w d m conf tr h
  rfl

/-- C10, witness: the run on `okWorld` succeeds; the call at position 9, right after the
last deployment, is the registration of the fee handler. -/
theorem successful_run_call_order_witness :
    PrepareLocalEVME2EEnv okWorld 1 9 [] =
        (((PrepareLocalEVME2EEnv okWorld 1 9 []).1.1, none),
          (PrepareLocalEVME2EEnv okWorld 1 9 []).2) ∧
      ((PrepareLocalEVME2EEnv okWorld 1 9 []).2.map Event.call)[9]? =
        some (.AdminChangeFeeHandler (PrepareLocalEVME2EEnv okWorld 1 9 []).1.1.FeeHandlerAddr
          { GasLimit := 2000000 }) :=
  ⟨by decide,
    (congrArg (fun l : List Call => l[9]?)
      (successful_run_call_order okWorld 1 9 (PrepareLocalEVME2EEnv okWorld 1 9 []).1.1
        (PrepareLocalEVME2EEnv okWorld 1 9 []).2 (by decide))).trans rfl⟩

/-! ## C11: the only mint of a run -/

/-- C11: in every successful run of `PrepareLocalEVME2EEnv` exactly one mint call is
issued: on the fungible token, to the mint recipient, for `10 * 10^18 = 10^19` units.
No mint is issued on the non-fungible token: its set-up, the run of
`PrepareErc721EVME2EEnv` on the calls at positions 15 to 17, consists of the resource
registration, the granting of minter rights to the handler and the marking as burnable,
and nothing else. -/
theorem single_mint_on_fungible_token (w : World) (d : Nat) (m : Address)
    (conf : EVME2EConfig) (tr : Trace)
    (h : PrepareLocalEVME2EEnv w d m [] = ((conf, none), tr)) :
    (tr.map Event.call).filter Call.isMint = [.Erc20MintTokens m tenTokens {}] ∧
      erc20Mints tr = [(m, 10 ^ 19)] ∧
      tenTokens = 10 * 10 ^ 18 ∧ tenTokens = 10 ^ 19 ∧
      (∀ ev ∈ tr, ∀ tokenId metadata destination opts,
        ev.call ≠ .Erc721Mint tokenId metadata destination opts) ∧
      PrepareErc721EVME2EEnv w conf resourceIDERC721 (tr.take 15) = (none, tr.take 18) ∧
      ((tr.take 18).drop 15).map Event.call =
        [.AdminSetResource conf.Erc721HandlerAddr resourceIDERC721 conf.Erc721Addr
            { GasLimit := 2000000 },
          .Erc721AddMinter conf.Erc721HandlerAddr {},
          .SetBurnableInput conf.Erc721HandlerAddr conf.Erc721Addr {}] := by
  obtain ⟨hf, -, hs, rfl⟩ := prepare_success w d m conf tr h
  have h15 := FaithfulFrom_getElem w _ [] 15 _ hf rfl
  have h16 := FaithfulFrom_getElem w _ [] 16 _ hf rfl
  have h17 := FaithfulFrom_getElem w _ [] 17 _ hf rfl
  refine ⟨rfl, rfl, rfl, by decide, ?_, ?_, rfl⟩
  · intro ev hev tokenId metadata destination opts hc
    simp only [successTrace, successCalls, successVals, List.zipWith, List.mem_cons,
      List.mem_singleton, List.not_mem_nil, or_false] at hev
    casesm* _ ∨ _
    all_goals subst_vars
    all_goals cases hc
  · rw [PrepareErc721EVME2EEnv_iff]
    exact Or.inr ⟨_, h15, Or.inr ⟨_, h16, Or.inr ⟨_, h17, rfl, rfl⟩⟩⟩

/-- C11, witness: the run on `okWorld` with recipient 9 succeeds; its only mint call is
the fungible mint of `10^19` units to 9. -/
theorem single_mint_on_fungible_token_witness :
    PrepareLocalEVME2EEnv okWorld 1 9 [] =
        (((PrepareLocalEVME2EEnv okWorld 1 9 []).1.1, none),
          (PrepareLocalEVME2EEnv okWorld 1 9 []).2) ∧
      ((PrepareLocalEVME2EEnv okWorld 1 9 []).2.map Event.call).filter Call.isMint =
        [.Erc20MintTokens 9 tenTokens {}] ∧
      erc20Mints (PrepareLocalEVME2EEnv okWorld 1 9 []).2 = [(9, 10 ^ 19)] :=
  ⟨by decide,
    (single_mint_on_fungible_token okWorld 1 9 (PrepareLocalEVME2EEnv okWorld 1 9 []).1.1
      (PrepareLocalEVME2EEnv okWorld 1 9 []).2 (by decide)).1,
    (single_mint_on_fungible_token okWorld 1 9 (PrepareLocalEVME2EEnv okWorld 1 9 []).1.1
      (PrepareLocalEVME2EEnv okWorld 1 9 []).2 (by decide)).2.1⟩

end Sygma
